import Mathlib

/-!
# Verification of the Chrome DevTools MCP browser orchestrator

Shallow embedding of the connection-orchestration, interception and tool-dispatch
logic of the `chrome-devTools-advanced-mcp` server, together with proofs about the
behaviours its specification describes.

The repository carries two drifted variants of the `ChromeConnector` class:

* the variant with `isRealBrowserOnPort`, the no-auto-launch `ensureConnected`
  and stealth support (referred to below as the `P3` variant, from the unnamed
  source file `part_003`, lines 40-1265), and
* the variant at `src/chrome-connector.ts` (referred to as the `Src` variant),
  whose `ensureConnected` auto-launches Chrome and whose process-exit handler
  re-probes the debugging port.

Definitions are translated from the TypeScript source; each doc string names the
function and lines it embeds.
-/

namespace ChromeMcp

/-! ## String helpers: JS `String.prototype.includes` and `toLowerCase` -/

/-- JS `a.startsWith`-style check on character lists: `charsStartWith needle hay`
is true when `needle` is an initial segment of `hay`. -/
def charsStartWith : List Char → List Char → Bool
  | [], _ => true
  | _ :: _, [] => false
  | a :: as, b :: bs => a == b && charsStartWith as bs

/-- Substring occurrence on character lists (recursion on the haystack). -/
def charsInfixOf (needle : List Char) : List Char → Bool
  | [] => charsStartWith needle []
  | b :: bs => charsStartWith needle (b :: bs) || charsInfixOf needle bs

/-- JS `hay.includes(needle)`. -/
def jsIncludes (hay needle : String) : Bool :=
  charsInfixOf needle.data hay.data

/-- JS `s.toLowerCase()` (ASCII, as used on the `Browser` version field). -/
def strToLower (s : String) : String :=
  String.mk (s.data.map Char.toLower)

/-! ## The `/json/version` probe (`isRealBrowserOnPort`) -/

/-- Fields of the `/json/version` HTTP response consulted by the port probe:
`json.Browser` and `json["User-Agent"]` (absent fields default to `""` via
`json.Browser` with empty-string fallback). -/
structure VersionInfo where
  browser : String
  userAgent : String
deriving DecidableEq, Repr

/-- `ChromeConnector.isRealBrowserOnPort` (P3 variant, lines 653-690).
`none` models every failure path of the probe: request error, timeout, or a body
that does not parse as JSON — all of which `resolve(false)`.  Otherwise the code
computes `isWebView` from the `User-Agent` and lowercased `Browser` fields and
accepts iff `browser.length > 0 && !isWebView`. -/
def isRealBrowserOnPort (resp : Option VersionInfo) : Bool :=
  match resp with
  | none => false
  | some j =>
    let browser := j.browser
    let isWebView :=
      jsIncludes j.userAgent "WebView" || jsIncludes (strToLower browser) "webview"
    decide (0 < browser.length) && !isWebView

/-- Spec-side acceptance condition, phrased from the specification's words: the
response identifies itself as a full Chromium browser, i.e. it parses, carries a
non-empty `Browser` field, and neither that field (case-insensitively) nor the
`User-Agent` marks it as a WebView.  To be compared with `isRealBrowserOnPort`,
which is translated from the code. -/
def specIdentifiesFullChromium (resp : Option VersionInfo) : Bool :=
  match resp with
  | none => false
  | some j =>
    (j.browser != "") &&
    !jsIncludes j.userAgent "WebView" &&
    !jsIncludes (strToLower j.browser) "webview"

theorem length_pos_iff_ne_empty (s : String) : (decide (0 < s.length) = true) ↔ s ≠ "" := by
  cases s with
  | mk data =>
    cases data with
    | nil => simp [String.length]
    | cons c cs =>
      simp only [String.length, decide_eq_true_eq, List.length_cons]
      constructor
      · intro _ h
        exact List.cons_ne_nil c cs (congrArg String.data h)
      · intro _
        exact Nat.succ_pos _

theorem isRealBrowserOnPort_eq_spec (resp : Option VersionInfo) :
    isRealBrowserOnPort resp = specIdentifiesFullChromium resp := by
  cases resp with
  | none => rfl
  | some j =>
    simp only [isRealBrowserOnPort, specIdentifiesFullChromium, Bool.not_or, Bool.and_assoc]
    congr 1
    have h := length_pos_iff_ne_empty j.browser
    cases hb : decide (0 < j.browser.length) with
    | false =>
      have : ¬ j.browser ≠ "" := by
        intro hne
        exact absurd (h.mpr hne) (by simp [hb])
      simp only [bne, this, Decidable.not_not.mp this]
      simp
    | true =>
      have : j.browser ≠ "" := h.mp hb
      simp [bne, this]

/-! ## Connector state

Instance fields shared by both `ChromeConnector` variants.  `stealthApplied`
exists only in the P3 variant's class; the `Src` variant's functions leave it
untouched.  Nullable object references (`connection`, `browserContext`,
`chromeProcess`) are modelled by `Bool` (present / null); `persistentClients`
keeps only the map's keys, which is all the lifecycle code manipulates. -/

structure ConnectorState where
  connection : Bool
  browserContext : Bool
  chromeProcess : Bool
  currentTabId : Option String
  persistentClients : List String
  stealthApplied : Bool
deriving DecidableEq, Repr

/-- `ChromeConnector.handleProcessDeath` of the `Src` variant
(`src/chrome-connector.ts`, lines 327-339): nulls `connection`,
`browserContext`, `chromeProcess`, `currentTabId` and clears
`persistentClients` (that class has no stealth flag, so the field is kept). -/
def handleProcessDeathSrc (s : ConnectorState) : ConnectorState :=
  { connection := false
    browserContext := false
    chromeProcess := false
    currentTabId := none
    persistentClients := []
    stealthApplied := s.stealthApplied }

/-- `ChromeConnector.handleProcessDeath` of the P3 variant (part_003, lines
465-493): closes and nulls `connection`, closes and nulls `browserContext`,
nulls `chromeProcess` and `currentTabId`, resets `stealthApplied` — and does
*not* touch the `persistentClients` map. -/
def handleProcessDeathP3 (s : ConnectorState) : ConnectorState :=
  { connection := false
    browserContext := false
    chromeProcess := false
    currentTabId := none
    persistentClients := s.persistentClients
    stealthApplied := false }

/-- `ChromeConnector.disconnect` (both variants): closes the CDP client and the
Playwright context and drops the process handle, leaving the rest alone. -/
def disconnectState (s : ConnectorState) : ConnectorState :=
  { s with connection := false, browserContext := false, chromeProcess := false }

/-! ## Process-exit supervision -/

/-- Outcome of the `CDP.List` re-probe performed by the `Src` exit handler:
whether the call succeeded and how many targets it returned. -/
structure ExitProbe where
  listOk : Bool
  targetCount : Nat
deriving DecidableEq, Repr

/-- Milliseconds the `Src` exit handler waits before re-probing the port
(`await new Promise(r => setTimeout(r, 500))`, src/chrome-connector.ts:253). -/
def exitReprobeDelayMs : Nat := 500

/-- exit-event handler of the spawned process of the `Src` variant
(src/chrome-connector.ts, lines 247-267): waits 500 ms, runs `CDP.List`; if it
answers with at least one target, only the dead process reference is nulled and
the connection is kept; otherwise `handleProcessDeath` runs. -/
def exitHandlerSrc (probe : ExitProbe) (s : ConnectorState) : ConnectorState :=
  if probe.listOk && decide (0 < probe.targetCount) then
    { s with chromeProcess := false }
  else
    handleProcessDeathSrc s

/-- exit-event handler of the spawned process of the P3 variant (part_003, lines
295-298): logs and calls `handleProcessDeath` unconditionally — no port
re-probe.  The probe argument is ignored, exactly as the code ignores the
port's state. -/
def exitHandlerP3 (_probe : ExitProbe) (s : ConnectorState) : ConnectorState :=
  handleProcessDeathP3 s

/-! ## Stealth injection -/

/-- CDP traffic emitted by one successful stealth application:
`Page.addScriptToEvaluateOnNewDocument` followed by the immediate
`Runtime.evaluate` of the same script. -/
inductive StealthStep where
  | installOnNewDocument
  | evalNow
deriving DecidableEq, Repr

/-- `ChromeConnector.applyStealthMode` (P3 variant, lines 929-952).
`clientOk` abstracts the fallible tab-client acquisition and domain enabling
(whose failure is caught non-fatally, leaving the flag unset).  Guard:
`if (!force && this.stealthApplied) return;`.  On success the script is
registered for new documents, evaluated immediately, and the flag is set. -/
def applyStealthModeP3 (clientOk force : Bool) (s : ConnectorState) :
    ConnectorState × List StealthStep :=
  if !force && s.stealthApplied then
    (s, [])
  else if clientOk then
    ({ s with stealthApplied := true }, [.installOnNewDocument, .evalNow])
  else
    (s, [])

/-! ## Connection orchestration (`ensureConnected`, `launchWithProfile`) -/

/-- Result of an async connector method: normal return or a thrown `Error`
carrying its message. -/
inductive CallResult where
  | ok
  | thrown (msg : String)
deriving DecidableEq, Repr

/-- Externally observable orchestration actions.  `attachExisting` is a CDP
client connection to a browser that was already listening on the port;
`connectSpawned` is the post-spawn CDP connection to the process the connector
itself started; `spawnChrome` is a `child_process.spawn` of the browser
executable. -/
inductive ConnAction where
  | probeList
  | attachExisting
  | spawnChrome
  | connectSpawned
  | applyStealth
  | createNewTab
  | prepareShadowProfile
  | bringToFront
deriving DecidableEq, Repr

/-- Environment for the P3 `ensureConnected`: outcome of each fallible external
operation it performs, in program order. -/
structure EnsureEnvP3 where
  /-- `CDP.List` liveness check for an existing connection. -/
  listOk : Bool
  /-- `/json/version` response seen by `isRealBrowserOnPort`. -/
  version : Option VersionInfo
  /-- `this.connect()` (CDP client attach) succeeds. -/
  connectOk : Bool
  /-- tab-client acquisition inside `applyStealthMode` succeeds. -/
  stealthClientOk : Bool
  /-- `chromium.connectOverCDP` Playwright wrapper attach succeeds. -/
  playwrightOk : Bool
  /-- `this.listTabs()` in the attach branch succeeds. -/
  tabsOk : Bool
  /-- at least one listed target is of kind `page`. -/
  hasPage : Bool
deriving Repr

/-- Message thrown by the P3 `ensureConnected` when no usable browser is on the
port (part_003, lines 749-751). -/
def notConnectedError : String :=
  "No Chrome browser detected. Please use the launch_chrome_with_profile tool first to open Chrome."

/-- `ChromeConnector.ensureConnected` of the P3 variant (part_003, lines
699-752).  Control flow: an existing live connection returns early; a dead one
is cleaned with `handleProcessDeath`.  Then `isRealBrowserOnPort` gates the
attach: on a real browser it connects, applies stealth, attaches the Playwright
wrapper (failure folded into `browserContext`), lists tabs and creates a
`chrome://newtab/` when no page exists.  Every other path falls through to the
no-auto-launch `throw` — the function never spawns a process. -/
def ensureConnectedP3 (env : EnsureEnvP3) (s : ConnectorState) :
    ConnectorState × List ConnAction × CallResult :=
  if s.connection && env.listOk then
    (s, [.probeList], .ok)
  else
    let s0 := if s.connection then handleProcessDeathP3 s else s
    if isRealBrowserOnPort env.version then
      if env.connectOk then
        let s1 := { s0 with connection := true }
        let stealth := applyStealthModeP3 env.stealthClientOk false s1
        let s2 := stealth.1
        let stealthActs : List ConnAction :=
          if stealth.2.isEmpty then [] else [.applyStealth]
        let s3 := if env.playwrightOk then { s2 with browserContext := true } else s2
        if env.tabsOk then
          let tabActs : List ConnAction := if env.hasPage then [] else [.createNewTab]
          (s3, [.attachExisting] ++ stealthActs ++ tabActs, .ok)
        else
          (s3, [.attachExisting] ++ stealthActs, .thrown notConnectedError)
      else
        (s0, [], .thrown notConnectedError)
    else
      (s0, [], .thrown notConnectedError)

/-- Environment for the `Src` variant's `launchWithProfile`
(src/chrome-connector.ts, lines 170-322). -/
structure LaunchEnvSrc where
  /-- the initial `this.connect()` to a pre-existing browser succeeds. -/
  portAlreadyOk : Bool
  /-- CDP becomes reachable within the post-spawn retry loop. -/
  cdpAfterSpawnOk : Bool
  /-- the Playwright wrapper attach succeeds. -/
  playwrightOk : Bool
deriving Repr

/-- `ChromeConnector.launchWithProfile` of the `Src` variant
(src/chrome-connector.ts, lines 170-322): skip when connected; else attach to
any browser already on the port (no version check in this variant); else shadow
the profile, spawn Chrome and retry the CDP connection, throwing when the port
never answers.  Window-foreground and log-file side effects are elided. -/
def launchWithProfileSrc (env : LaunchEnvSrc) (s : ConnectorState) :
    ConnectorState × List ConnAction × CallResult :=
  if s.connection then
    (s, [], .ok)
  else if env.portAlreadyOk then
    ({ s with connection := true }, [.attachExisting], .ok)
  else
    let s1 := { s with chromeProcess := true }
    if env.cdpAfterSpawnOk then
      ({ s1 with connection := true, browserContext := env.playwrightOk },
       [.prepareShadowProfile, .spawnChrome, .connectSpawned], .ok)
    else
      (s1, [.prepareShadowProfile, .spawnChrome],
       .thrown "Chrome launched but CDP port not accessible after 12s.")

/-- Environment for the `Src` variant's `ensureConnected`. -/
structure EnsureEnvSrc where
  /-- `CDP.List` liveness check for an existing connection. -/
  listOk : Bool
  /-- number of targets the liveness check returned. -/
  targetCount : Nat
  /-- `this.connect()` to an existing browser succeeds. -/
  connectOk : Bool
  /-- the Playwright wrapper attach succeeds. -/
  playwrightOk : Bool
  /-- environment for the auto-launch call. -/
  launch : LaunchEnvSrc
deriving Repr

/-- `ChromeConnector.ensureConnected` of the `Src` variant
(src/chrome-connector.ts, lines 468-513).  An existing connection with targets
returns early; a dead one is cleaned with `handleProcessDeath`.  Then it tries
a plain `this.connect()` — no `/json/version` identity check — and, when that
fails, **auto-launches** Chrome with the Default profile via
`launchWithProfile`, re-throwing its failure wrapped in a
`Failed to launch Chrome` message. -/
def ensureConnectedSrc (env : EnsureEnvSrc) (s : ConnectorState) :
    ConnectorState × List ConnAction × CallResult :=
  if s.connection && env.listOk && decide (0 < env.targetCount) then
    (s, [.probeList], .ok)
  else
    let s0 := if s.connection then handleProcessDeathSrc s else s
    if env.connectOk then
      ({ s0 with connection := true, browserContext := env.playwrightOk },
       [.attachExisting], .ok)
    else
      let launched := launchWithProfileSrc env.launch s0
      match launched.2.2 with
      | .ok => (launched.1, launched.2.1, .ok)
      | .thrown m => (launched.1, launched.2.1, .thrown ("Failed to launch Chrome: " ++ m))

/-! ## Shadow profile and singleton lock files -/

/-- The three stale lock filenames Chrome leaves after a killed session
(part_003, line 174). -/
def lockFileNames : List String := ["SingletonLock", "SingletonSocket", "SingletonCookie"]

/-- Temp directory the shadow profile lives in (`chrome-mcp-shadow` under the
OS temp dir, both variants). -/
def shadowRoot : String := "chrome-mcp-shadow"

/-- The six paths the lock-removal loop deletes: each lock filename, in the
root of the shadow user-data dir and in the named profile subdirectory
(part_003, lines 175-182: `for (const dir of [tempDir, profileDest])`). -/
def shadowLockPaths (profileName : String) : List String :=
  lockFileNames.map (fun lf => shadowRoot ++ "/" ++ lf) ++
  lockFileNames.map (fun lf => shadowRoot ++ "/" ++ profileName ++ "/" ++ lf)

/-- Lock-file effect of `createShadowProfile` in the P3 variant (part_003,
lines 98-186): after the Local State copy and the robocopy/rsync mirror —
abstracted as the file set `fsAfterMirror` — the removal loop deletes every
`shadowLockPaths` entry that exists. -/
def createShadowProfileP3 (profileName : String) (fsAfterMirror : List String) :
    List String :=
  fsAfterMirror.filter (fun p => !(shadowLockPaths profileName).contains p)

/-- Lock-file effect of `createShadowProfile` in the `Src` variant
(src/chrome-connector.ts, lines 95-164): the function copies Local State and
mirrors the profile subdirectory but contains no singleton-lock removal, so the
lock-file set is unchanged (the mirror only touches the profile subtree and is
keyed to the source's contents, not to staleness of locks). -/
def createShadowProfileSrc (_profileName : String) (fsAfterMirror : List String) :
    List String :=
  fsAfterMirror

/-- Options of the P3 `launchWithProfile` that drive profile handling. -/
structure LaunchOptionsP3 where
  force : Bool
  profileDirectory : String
  userDataDir : Option String
deriving Repr

/-- Environment for the P3 `launchWithProfile` (part_003, lines 192-460). -/
structure LaunchEnvP3 where
  /-- `/json/version` response for the pre-launch `isRealBrowserOnPort` probe. -/
  version : Option VersionInfo
  /-- `this.connect()` to the pre-existing real browser succeeds. -/
  attachConnectOk : Bool
  /-- the spawned process is still alive at the verification step. -/
  processAliveOk : Bool
  /-- CDP becomes reachable within the post-spawn retry loop. -/
  cdpAfterSpawnOk : Bool
  /-- tab-client acquisition inside `applyStealthMode` succeeds. -/
  stealthClientOk : Bool
  /-- the Playwright wrapper attach succeeds. -/
  playwrightOk : Bool
deriving Repr

/-- `ChromeConnector.launchWithProfile` of the P3 variant (part_003, lines
192-460), with the lock-file set `fs` threaded through.  When connected and not
forced it only raises the window; `force` disconnects first.  A real browser on
the port is attached instead of launching (`isRealBrowserOnPort` gate).
Otherwise, for the Default profile with no custom data dir the shadow profile is
created (which removes the singleton locks), then Chrome is spawned, verified,
connected, and stealth is applied.  Foreground, logging, target-listing and
toast sub-steps are elided. -/
def launchWithProfileP3 (env : LaunchEnvP3) (opts : LaunchOptionsP3)
    (fs : List String) (s : ConnectorState) :
    ConnectorState × List String × List ConnAction × CallResult :=
  if s.connection && !opts.force then
    (s, fs, [.bringToFront], .ok)
  else
    let s0 := if s.connection then disconnectState s else s
    if isRealBrowserOnPort env.version && env.attachConnectOk then
      ({ s0 with connection := true }, fs, [.attachExisting, .bringToFront], .ok)
    else
      let shadow := opts.profileDirectory == "Default" && opts.userDataDir.isNone
      let fs1 := if shadow then createShadowProfileP3 opts.profileDirectory fs else fs
      let prepActs : List ConnAction := if shadow then [.prepareShadowProfile] else []
      let s1 := { s0 with chromeProcess := true }
      if !env.processAliveOk then
        (handleProcessDeathP3 s1, fs1, prepActs ++ [.spawnChrome],
         .thrown "Chrome process exited immediately")
      else if env.cdpAfterSpawnOk then
        let s2 := { s1 with connection := true }
        let stealth := applyStealthModeP3 env.stealthClientOk false s2
        let s3 :=
          if env.playwrightOk then { stealth.1 with browserContext := true } else stealth.1
        let stealthActs : List ConnAction :=
          if stealth.2.isEmpty then [] else [.applyStealth]
        (s3, fs1, prepActs ++ [.spawnChrome, .connectSpawned] ++ stealthActs, .ok)
      else
        (s1, fs1, prepActs ++ [.spawnChrome],
         .thrown "CDP port not accessible after 15s")

/-! ## Fetch interception handlers (smart-workflows.ts) -/

/-- Terminal CDP dispositions for a paused request. -/
inductive FetchCall where
  | continueRequest
  | continueResponse
  | fulfillRequest
  | failRequest
deriving DecidableEq, Repr

/-- `Fetch.requestPaused` handler of `add_custom_header_to_request`
(smart-workflows.ts, lines 40-63): the try-block issues one
`Fetch.continueRequest` with the augmented header array; if that call rejects,
the catch issues a plain `Fetch.continueRequest` whose own rejection is
swallowed by `.catch(() => { })`.  The result lists the dispositions the
browser successfully applied, given the outcome of each call in issue order. -/
def addHeaderDispositions (primaryOk fallbackOk : Bool) : List FetchCall :=
  if primaryOk then [.continueRequest]
  else if fallbackOk then [.continueRequest]
  else []

/-- `Fetch.requestPaused` handler of `intercept_and_modify_traffic`
(smart-workflows.ts, lines 157-208): same shape — a modified
`Fetch.continueRequest` in the try-block, a plain `Fetch.continueRequest` with
swallowed rejection in the catch. -/
def interceptModifyDispositions (primaryOk fallbackOk : Bool) : List FetchCall :=
  if primaryOk then [.continueRequest]
  else if fallbackOk then [.continueRequest]
  else []

/-- `Fetch.requestPaused` handler of `capture_network_on_action`
(smart-workflows.ts, lines 289-292): records the pause and issues a single
`Fetch.continueRequest` whose rejection is swallowed by `.catch(() => { })` —
there is no fallback. -/
def captureNetworkDispositions (ok : Bool) : List FetchCall :=
  if ok then [.continueRequest] else []

/-! ## Tool catalog and call-tool dispatcher (server entry point) -/

/-- Tool names exempted from the auto-connect step in the
`CallToolRequestSchema` handler (`noConnectionNeeded`, entry point lines
298-303). -/
def noConnectionNeeded : List String :=
  ["show_advanced_tools", "hide_advanced_tools", "get_browser_status", "close_browser"]

/-- `allToolsMap` domain: the names of `coreTools`, `controlTools` and
`advancedTools` concatenated (entry point, lines 149-153) — all tools,
independent of the visibility flag. -/
def allToolNames (core control advanced : List String) : List String :=
  core ++ control ++ advanced

/-- `getActiveTools()` (entry point, lines 141-146): the list-tools response
enumerates all three groups when `advancedToolsEnabled` is set, and only
core + control otherwise. -/
def getActiveToolNames (core control advanced : List String)
    (advancedToolsEnabled : Bool) : List String :=
  if advancedToolsEnabled then core ++ control ++ advanced else core ++ control

/-- Outcome of a tool handler: structured return value (a JSON body) or a
thrown `Error`. -/
inductive HandlerOutcome where
  | ok (body : String)
  | raised (msg : String)
deriving DecidableEq, Repr

/-- Result of one call-tool request as seen by the MCP framework: the
dispatcher's returned content, or an exception that escaped it. -/
inductive CallToolOutcome where
  | thrown (msg : String)
  | okResult (body : String)
  | structuredError (errMsg toolName : String)
deriving DecidableEq, Repr

/-- `server.setRequestHandler(CallToolRequestSchema, ...)` (entry point, lines
284-363).  The lookup miss throw of the Unknown-tool `Error` sits *before*
the try-block, so it escapes the dispatcher.  Inside the try: tools outside
`noConnectionNeeded` run `ensureConnected`, whose failure returns the
`Chrome connection failed` structured error; then Zod parsing (a throwing
validator) and the handler run, any raise being converted by the catch into
`{ success: false, error, tool }`.  `advancedToolsEnabled` is *not* consulted:
lookup goes through `allToolsMap`. -/
def callToolDispatcher (core control advanced : List String)
    (_advancedToolsEnabled : Bool) (name : String)
    (ensureOk : Bool) (parseOk : Bool) (parseErr : String)
    (handlerResult : HandlerOutcome) : CallToolOutcome :=
  if !(allToolNames core control advanced).contains name then
    .thrown ("Unknown tool: " ++ name)
  else if !(noConnectionNeeded.contains name) && !ensureOk then
    .structuredError "Chrome connection failed" name
  else if !parseOk then
    .structuredError parseErr name
  else
    match handlerResult with
    | .ok v => .okResult v
    | .raised m => .structuredError m name

/-- A dispatcher outcome is a structured return (no escaping exception), and
any structured error names the called tool. -/
def structuredForTool (name : String) : CallToolOutcome → Prop
  | .thrown _ => False
  | .okResult _ => True
  | .structuredError _ t => t = name

/-! ## Default target resolution (`getTabClient` / `listTabs`) -/

/-- A CDP target as returned by `/json/list`. -/
structure TargetInfo where
  id : String
  type : String
deriving DecidableEq, Repr

/-- Target kinds `listTabs` keeps (src/chrome-connector.ts, line 561): the
filter deliberately admits more than pages. -/
def interestingTypes : List String := ["page", "service_worker", "background_page", "other"]

/-- `ChromeConnector.listTabs` (src/chrome-connector.ts, lines 554-572): the
enumeration filtered to the interesting kinds, order preserved. -/
def listTabsFilter (targets : List TargetInfo) : List TargetInfo :=
  targets.filter (fun t => interestingTypes.contains t.type)

/-- Target-id resolution of `ChromeConnector.getTabClient`
(src/chrome-connector.ts, lines 626-655): `const target = tabId ||
this.currentTabId`; when both are absent, `listTabs()` runs and the *first*
filtered target's id is used, or the handler throws when the filtered list is
empty. -/
def getTabClientTarget (tabId currentTabId : Option String)
    (targets : List TargetInfo) : CallResult × Option String :=
  match tabId.orElse (fun _ => currentTabId) with
  | some t => (.ok, some t)
  | none =>
    match listTabsFilter targets with
    | [] => (.thrown "Chrome is accessible but has no open tabs/pages.", none)
    | t :: _ => (.ok, some t.id)

/-! ## Canvas fingerprint perturbation (stealth script) -/

/-- One RGBA pixel of an `ImageData` buffer, channels as integers 0-255. -/
structure Rgba where
  r : Int
  g : Int
  b : Int
  a : Int
deriving DecidableEq, Repr

/-- The clamp `Math.max(0, Math.min(255, v + n))` of the stealth script. -/
def clampByte (x : Int) : Int := max 0 (min 255 x)

/-- Per-pixel effect of the stealth canvas noise (part_003, lines 838-884):
the seed-derived offset `n = ((Math.sin(seed*(i+1)) * 127) | 0) % 2`, which
lies in `{-1, 0, 1}`, is added to the R, G and B channels and clamped; alpha is
untouched. -/
def applyCanvasNoise (n : Int) (p : Rgba) : Rgba :=
  { r := clampByte (p.r + n)
    g := clampByte (p.g + n)
    b := clampByte (p.b + n)
    a := p.a }

/-- Range of the script's per-pixel offset: `(x | 0) % 2` in JS yields
`-1`, `0` or `1`. -/
def validNoise (n : Int) : Prop := n = -1 ∨ n = 0 ∨ n = 1

/-! ## Shared concrete fixtures -/

/-- Freshly constructed connector: every reference null, nothing cached. -/
def initialState : ConnectorState :=
  { connection := false
    browserContext := false
    chromeProcess := false
    currentTabId := none
    persistentClients := []
    stealthApplied := false }

/-- A connector that is fully attached: live connection, Playwright context,
managed process, an active tab, and one persistent interception client (the
default key the persistent-client table uses). -/
def connectedState : ConnectorState :=
  { connection := true
    browserContext := true
    chromeProcess := true
    currentTabId := some "TAB1"
    persistentClients := ["default"]
    stealthApplied := true }

/-- A version response typical of an embedded WebView on the debugging port:
the Browser field looks plausible, but the User-Agent carries the WebView
marker the probe rejects. -/
def webViewVersion : VersionInfo :=
  { browser := "Chrome/120.0.6099.230"
    userAgent := "Mozilla/5.0 (Linux; Android 14; wv) AppleWebKit/537.36 WebView" }

/-! ## Lifecycle helper lemmas -/

/-- The P3 `ensureConnected` contains no spawn on any path: every trace it can
emit is built from probe / attach / stealth / tab-creation actions only. -/
theorem ensureConnectedP3_no_spawn (env : EnsureEnvP3) (s : ConnectorState) :
    ConnAction.spawnChrome ∉ (ensureConnectedP3 env s).2.1 := by
  simp only [ensureConnectedP3]
  split_ifs <;> simp

/-! ## C1 — `ensure_connected` refuses to auto-launch -/

/-- Environment of the C1 counterexample: no live connection, nothing answering
the port, and a spawn that would succeed. -/
def c1EnvSrc : EnsureEnvSrc :=
  { listOk := false
    targetCount := 0
    connectOk := false
    playwrightOk := false
    launch := { portAlreadyOk := false, cdpAfterSpawnOk := true, playwrightOk := false } }

/-- C1 counterexample: the `Src` variant of `ensureConnected`
(src/chrome-connector.ts, lines 468-513), invoked with no `BrowserInstance`
and a free port, spawns Chrome — contradicting the claim that `ensure_connected`
never spawns a browser process and that launching happens only through the
explicit launch tool. -/
theorem c1_src_ensureConnected_autolaunches :
    ConnAction.spawnChrome ∈ (ensureConnectedSrc c1EnvSrc initialState).2.1 := by
  decide

/-- C1 (amended): in the P3 variant the claim holds — `ensureConnected` never
emits a spawn on any path, and when no `BrowserInstance` exists and the port
does not host a real browser it throws the not-connected error, whose message
names the explicit `launch_chrome_with_profile` tool.  (The `Src` variant
violates the claim; see the counterexample.) -/
theorem c1_ensureConnected_refuses_to_launch (env : EnsureEnvP3) (s : ConnectorState)
    (hconn : s.connection = false)
    (hreal : isRealBrowserOnPort env.version = false) :
    ensureConnectedP3 env s = (s, [], .thrown notConnectedError) ∧
    (∀ env2 s2, ConnAction.spawnChrome ∉ (ensureConnectedP3 env2 s2).2.1) ∧
    jsIncludes notConnectedError "launch_chrome_with_profile" = true := by
  refine ⟨?_, fun env2 s2 => ensureConnectedP3_no_spawn env2 s2, by decide⟩
  simp [ensureConnectedP3, hconn, hreal]

/-- C1 witness: the theorem applied to a free port (version probe fails) and a
fresh connector. -/
theorem c1_ensureConnected_refuses_witness :
    ensureConnectedP3
        { listOk := false, version := none, connectOk := false, stealthClientOk := false,
          playwrightOk := false, tabsOk := false, hasPage := false }
        initialState
      = (initialState, [], .thrown notConnectedError) :=
  (c1_ensureConnected_refuses_to_launch
      { listOk := false, version := none, connectOk := false, stealthClientOk := false,
        playwrightOk := false, tabsOk := false, hasPage := false }
      initialState rfl rfl).1

/-! ## C2 — one terminal disposition per paused request -/

/-- C2 counterexample: the `capture_network_on_action` pause handler issues a
single `Fetch.continueRequest` and swallows its rejection; when that call fails
(tab closed, connection gone) the paused request receives **zero** terminal
dispositions, contradicting the never-zero part of the claim. -/
theorem c2_zero_dispositions_possible :
    (captureNetworkDispositions false).length = 0 := rfl

/-- C2 (amended): for each of the three interception handlers, at most one
terminal disposition is ever successfully applied to a paused request (never
two), and exactly one is applied whenever the primary `Fetch.continueRequest` —
or, for the two modifying handlers, its fallback — succeeds.  Zero dispositions
occur exactly when every attempt fails. -/
theorem c2_paused_request_dispositions (p f c : Bool) :
    (addHeaderDispositions p f).length ≤ 1 ∧
    (interceptModifyDispositions p f).length ≤ 1 ∧
    (captureNetworkDispositions c).length ≤ 1 ∧
    ((p || f) = true → (addHeaderDispositions p f).length = 1) ∧
    ((p || f) = true → (interceptModifyDispositions p f).length = 1) ∧
    (c = true → (captureNetworkDispositions c).length = 1) := by
  cases p <;> cases f <;> cases c <;>
    simp [addHeaderDispositions, interceptModifyDispositions, captureNetworkDispositions]

/-- C2 witness: a failing primary call followed by a successful fallback still
yields exactly one applied disposition. -/
theorem c2_paused_request_dispositions_witness :
    (addHeaderDispositions false true).length = 1 :=
  (c2_paused_request_dispositions false true true).2.2.2.1 rfl

/-! ## C3 — the dispatcher returns structured results -/

/-- C3 counterexample: a call-tool request naming a tool outside the catalog
hits the throw of the Unknown-tool `Error`, which sits before the try-block of
the dispatcher — an exception escapes instead of a structured
`success: false` object, contradicting the whatever-tool-name part of the
claim. -/
theorem c3_unknown_tool_throws :
    callToolDispatcher ["navigate"] [] [] false "nonexistent_tool" true true ""
        (.ok "{}")
      = .thrown "Unknown tool: nonexistent_tool" := by
  decide

/-- Every dispatch of a name present in `allToolsMap` produces a structured
return tagged with that name, whatever the connection, validation and handler
outcomes (shared by the C3 and C10 theorems). -/
theorem dispatcher_structured_of_contains (core control advanced : List String)
    (flag : Bool) (name : String) (ensureOk parseOk : Bool) (parseErr : String)
    (hr : HandlerOutcome)
    (hknown : (allToolNames core control advanced).contains name = true) :
    structuredForTool name
      (callToolDispatcher core control advanced flag name ensureOk parseOk parseErr hr) := by
  unfold callToolDispatcher
  rw [hknown]
  simp only [Bool.not_true, Bool.false_eq_true, if_false]
  split_ifs <;> first
    | trivial
    | (cases hr <;> simp [structuredForTool])

/-- C3 (amended): for every call-tool request naming a tool that is in the
catalog, the dispatcher returns either the handler result or a structured
error naming that tool — no exception escapes; for a name outside the catalog
the Unknown-tool error is thrown out of the dispatcher (it is absorbed by the
surrounding MCP framework, not by this handler). -/
theorem c3_dispatcher_structured_for_known (core control advanced : List String)
    (flag : Bool) (name : String) (ensureOk parseOk : Bool) (parseErr : String)
    (hr : HandlerOutcome)
    (hknown : (allToolNames core control advanced).contains name = true) :
    structuredForTool name
      (callToolDispatcher core control advanced flag name ensureOk parseOk parseErr hr) :=
  dispatcher_structured_of_contains core control advanced flag name ensureOk parseOk
    parseErr hr hknown

/-- C3 witness: a known tool whose handler raises is converted into a
structured error carrying the tool name. -/
theorem c3_dispatcher_structured_witness :
    structuredForTool "navigate"
      (callToolDispatcher ["navigate"] [] [] false "navigate" true true ""
        (.raised "boom")) :=
  c3_dispatcher_structured_for_known ["navigate"] [] [] false "navigate" true true ""
    (.raised "boom") (by decide)

/-! ## C4 — attach only to a full Chromium -/

/-- An attach-to-existing in the P3 `ensureConnected` trace implies the version
probe accepted the port. -/
theorem ensureConnectedP3_attach_needs_real (env : EnsureEnvP3) (s : ConnectorState)
    (h : ConnAction.attachExisting ∈ (ensureConnectedP3 env s).2.1) :
    isRealBrowserOnPort env.version = true := by
  by_contra hne
  have hr : isRealBrowserOnPort env.version = false := by
    cases hx : isRealBrowserOnPort env.version
    · rfl
    · exact absurd hx hne
  simp only [ensureConnectedP3, hr] at h
  split_ifs at h <;> simp_all

/-- An attach-to-existing in the P3 `launchWithProfile` trace implies the
version probe accepted the port. -/
theorem launchWithProfileP3_attach_needs_real (env : LaunchEnvP3)
    (opts : LaunchOptionsP3) (fs : List String) (s : ConnectorState)
    (h : ConnAction.attachExisting ∈ (launchWithProfileP3 env opts fs s).2.2.1) :
    isRealBrowserOnPort env.version = true := by
  by_contra hne
  have hr : isRealBrowserOnPort env.version = false := by
    cases hx : isRealBrowserOnPort env.version
    · rfl
    · exact absurd hx hne
  simp only [launchWithProfileP3, hr] at h
  split_ifs at h <;> simp_all

/-- C4: the code predicate `isRealBrowserOnPort` coincides with the
specification predicate (non-empty `Browser` field, not a WebView), and for
every look-alike response neither `ensureConnected` nor `launchWithProfile`
performs an attach to the process already listening on the port. -/
theorem c4_attach_requires_full_chromium (resp : Option VersionInfo)
    (env : EnsureEnvP3) (lenv : LaunchEnvP3) (opts : LaunchOptionsP3)
    (fs : List String) (s s2 : ConnectorState)
    (hv : env.version = resp) (hv2 : lenv.version = resp)
    (hlook : specIdentifiesFullChromium resp = false) :
    isRealBrowserOnPort resp = specIdentifiesFullChromium resp ∧
    ConnAction.attachExisting ∉ (ensureConnectedP3 env s).2.1 ∧
    ConnAction.attachExisting ∉ (launchWithProfileP3 lenv opts fs s2).2.2.1 := by
  refine ⟨isRealBrowserOnPort_eq_spec resp, ?_, ?_⟩
  · intro h
    have := ensureConnectedP3_attach_needs_real env s h
    rw [hv, isRealBrowserOnPort_eq_spec, hlook] at this
    exact Bool.false_ne_true this
  · intro h
    have := launchWithProfileP3_attach_needs_real lenv opts fs s2 h
    rw [hv2, isRealBrowserOnPort_eq_spec, hlook] at this
    exact Bool.false_ne_true this

/-- C4 witness: a WebView answering the port is rejected — the theorem applied
to the concrete `webViewVersion` response. -/
theorem c4_attach_requires_full_chromium_witness :
    ConnAction.attachExisting ∉
      (ensureConnectedP3
        { listOk := false, version := some webViewVersion, connectOk := true,
          stealthClientOk := true, playwrightOk := true, tabsOk := true, hasPage := true }
        initialState).2.1 :=
  (c4_attach_requires_full_chromium (some webViewVersion)
      { listOk := false, version := some webViewVersion, connectOk := true,
        stealthClientOk := true, playwrightOk := true, tabsOk := true, hasPage := true }
      { version := some webViewVersion, attachConnectOk := true, processAliveOk := true,
        cdpAfterSpawnOk := true, stealthClientOk := true, playwrightOk := true }
      { force := false, profileDirectory := "Default", userDataDir := none }
      [] initialState initialState rfl rfl (by decide)).2.1

/-! ## C5 — exit supervision re-probes the port -/

/-- C5 counterexample: the P3 variant exit handler (part_003, lines 295-298)
ignores the port entirely — even when the re-probe environment says the port
still answers with targets, the connection is torn down, contradicting the
claim that the instance stays connected when the port is still alive. -/
theorem c5_p3_exit_teardown_despite_live_port :
    connectedState.connection = true ∧
    (exitHandlerP3 { listOk := true, targetCount := 2 } connectedState).connection = false := by
  decide

/-- C5 (amended): in the `Src` variant the claim holds — the exit handler
re-probes after 500 ms (within the 2 s bound); when the port answers with at
least one target only the process handle is dropped and everything else is
kept, otherwise the instance is torn down via `handleProcessDeath`.  (The P3
variant tears down unconditionally; see the counterexample.) -/
theorem c5_src_exit_handler_reprobe (probe : ExitProbe) (s : ConnectorState) :
    exitReprobeDelayMs ≤ 2000 ∧
    (probe.listOk = true → 0 < probe.targetCount →
      exitHandlerSrc probe s = { s with chromeProcess := false }) ∧
    (probe.listOk = false ∨ probe.targetCount = 0 →
      exitHandlerSrc probe s = handleProcessDeathSrc s) := by
  refine ⟨by norm_num [exitReprobeDelayMs], ?_, ?_⟩
  · intro h1 h2
    simp [exitHandlerSrc, h1, h2]
  · rintro (h | h) <;> simp [exitHandlerSrc, h]

/-- C5 witness: a live port after process exit keeps the connected state and
drops only the handle. -/
theorem c5_src_exit_handler_reprobe_witness :
    exitHandlerSrc { listOk := true, targetCount := 2 } connectedState
      = { connectedState with chromeProcess := false } :=
  (c5_src_exit_handler_reprobe { listOk := true, targetCount := 2 } connectedState).2.1
    rfl (by decide)

/-! ## C6 — disconnect clears all downstream state -/

/-- C6: evaluating the P3 `handleProcessDeath` at a fully attached connector
with one persistent interception client.  The CDP connection, Playwright
context, process handle and current tab id are cleared, but the persistent
client table still holds its entry — the transition is not the atomic
full clear the claim (and the `Src` variant, shown alongside) requires. -/
theorem c6_p3_death_leaves_persistent_clients :
    (handleProcessDeathP3 connectedState).connection = false ∧
    (handleProcessDeathP3 connectedState).browserContext = false ∧
    (handleProcessDeathP3 connectedState).chromeProcess = false ∧
    (handleProcessDeathP3 connectedState).currentTabId = none ∧
    (handleProcessDeathP3 connectedState).persistentClients = ["default"] ∧
    (handleProcessDeathSrc connectedState).persistentClients = [] := by
  decide

/-! ## C7 — singleton lock files are removed before spawning -/

/-- C7 counterexample: the `Src` variant `createShadowProfile`
(src/chrome-connector.ts, lines 95-164) removes no lock files: a stale
`SingletonLock` in the root of the shadow data directory — one of the paths the
claim requires removed — survives the profile preparation untouched. -/
theorem c7_src_shadow_profile_keeps_locks :
    "chrome-mcp-shadow/SingletonLock" ∈ shadowLockPaths "Default" ∧
    createShadowProfileSrc "Default" ["chrome-mcp-shadow/SingletonLock"]
      = ["chrome-mcp-shadow/SingletonLock"] :=
  ⟨by decide, rfl⟩

/-- C7 (amended): in the P3 variant the claim holds — profile preparation
removes every singleton lock file from both the data-directory root and the
profile subdirectory, and in the launch sequence this preparation strictly
precedes the spawn.  (The `Src` variant removes none; see the
counterexample.) -/
theorem c7_p3_launch_removes_locks_before_spawn (profileName : String)
    (fs : List String) (p : String) (hp : p ∈ shadowLockPaths profileName)
    (env : LaunchEnvP3) (opts : LaunchOptionsP3) (fs2 : List String)
    (s : ConnectorState) (hprof : opts.profileDirectory = "Default")
    (hdir : opts.userDataDir = none) (hconn : s.connection = false)
    (hreal : isRealBrowserOnPort env.version = false) :
    p ∉ createShadowProfileP3 profileName fs ∧
    ∃ rest, (launchWithProfileP3 env opts fs2 s).2.2.1
      = ConnAction.prepareShadowProfile :: ConnAction.spawnChrome :: rest := by
  constructor
  · intro hmem
    rw [createShadowProfileP3, List.mem_filter] at hmem
    have hnot := hmem.2
    simp at hnot
    exact hnot hp
  · simp only [launchWithProfileP3, hconn, hreal, hprof, hdir, Option.isNone_none,
      beq_self_eq_true, Bool.and_self, Bool.false_and, Bool.false_eq_true, if_false,
      if_true, ite_true, ite_false]
    split_ifs <;> exact ⟨_, rfl⟩

/-- C7 witness: the stale root lock is gone from a concrete prepared shadow
profile. -/
theorem c7_p3_launch_removes_locks_witness :
    "chrome-mcp-shadow/SingletonLock" ∉
      createShadowProfileP3 "Default"
        ["chrome-mcp-shadow/SingletonLock", "chrome-mcp-shadow/Default/Preferences"] :=
  (c7_p3_launch_removes_locks_before_spawn "Default"
      ["chrome-mcp-shadow/SingletonLock", "chrome-mcp-shadow/Default/Preferences"]
      "chrome-mcp-shadow/SingletonLock" (by decide)
      { version := none, attachConnectOk := false, processAliveOk := true,
        cdpAfterSpawnOk := true, stealthClientOk := true, playwrightOk := true }
      { force := false, profileDirectory := "Default", userDataDir := none }
      [] initialState rfl rfl rfl rfl).1

/-! ## C8 — default target resolution -/

/-- A browser with zero pages whose only enumerated target is a service
worker. -/
def swOnlyTargets : List TargetInfo := [{ id := "SW1", type := "service_worker" }]

/-- C8 counterexample: with no explicit target id, no current tab and zero
pages, `getTabClient` resolves to the service worker — a non-page target is
selected as the default, and resolution does not fail although the browser has
zero pages, contradicting both the page-only and the no-page-available parts of
the claim. -/
theorem c8_service_worker_selected_as_default :
    getTabClientTarget none none swOnlyTargets = (CallResult.ok, some "SW1") ∧
    (listTabsFilter swOnlyTargets).map TargetInfo.type = ["service_worker"] := by
  decide

/-- C8 (amended): with no explicit target id the resolved default is the
stored current tab id when set, otherwise the first target in enumeration
order among kinds page, service_worker, background_page and other; resolution
fails exactly when that filtered enumeration is empty.  The default is not
guaranteed to be of kind page. -/
theorem c8_default_target_resolution (tabId currentTabId : Option String)
    (targets : List TargetInfo) :
    (∀ t, tabId = some t →
      getTabClientTarget tabId currentTabId targets = (.ok, some t)) ∧
    (tabId = none → ∀ t, currentTabId = some t →
      getTabClientTarget tabId currentTabId targets = (.ok, some t)) ∧
    (tabId = none → currentTabId = none → listTabsFilter targets = [] →
      (getTabClientTarget tabId currentTabId targets).2 = none ∧
      (getTabClientTarget tabId currentTabId targets).1 ≠ CallResult.ok) ∧
    (tabId = none → currentTabId = none →
      ∀ t rest, listTabsFilter targets = t :: rest →
        getTabClientTarget tabId currentTabId targets = (.ok, some t.id)) := by
  refine ⟨?_, ?_, ?_, ?_⟩
  · rintro t rfl
    rfl
  · rintro rfl t rfl
    rfl
  · rintro rfl rfl hfil
    simp [getTabClientTarget, hfil]
  · rintro rfl rfl t rest hfil
    simp [getTabClientTarget, hfil]

/-- C8 witness: the first enumerated page is picked when nothing is pinned. -/
theorem c8_default_target_resolution_witness :
    getTabClientTarget none none
        [{ id := "P1", type := "page" }, { id := "SW1", type := "service_worker" }]
      = (CallResult.ok, some "P1") :=
  (c8_default_target_resolution none none
      [{ id := "P1", type := "page" }, { id := "SW1", type := "service_worker" }]).2.2.2
    rfl rfl { id := "P1", type := "page" } [{ id := "SW1", type := "service_worker" }]
    (by decide)

/-! ## C9 — stealth idempotence -/

/-- A uniform mid-range pixel, far from the clamp bounds. -/
def basePixel : Rgba := { r := 100, g := 100, b := 100, a := 255 }

/-- The readback after two applications of the perturbation with offset -1. -/
def doubledPixel : Rgba := { r := 98, g := 98, b := 98, a := 255 }

/-- C9 counterexample: a forced re-injection stacks a second canvas
perturbation on top of the first.  With offset -1 both times (a value the
seed-derived offset can take), the doubly perturbed pixel reads back 98-98-98,
which no single application — the offset ranges over -1, 0 and 1 only — can
produce from the same pixel.  The forced second application is therefore
observably different from a single one, contradicting the
observational-equivalence part of the claim. -/
theorem c9_double_canvas_noise_not_single :
    validNoise (-1) ∧
    applyCanvasNoise (-1) (applyCanvasNoise (-1) basePixel) = doubledPixel ∧
    applyCanvasNoise (-1) basePixel ≠ doubledPixel ∧
    applyCanvasNoise 0 basePixel ≠ doubledPixel ∧
    applyCanvasNoise 1 basePixel ≠ doubledPixel :=
  ⟨Or.inl rfl, by decide, by decide, by decide, by decide⟩

/-- C9 (amended): a second `applyStealthMode` call without `force` in the same
connection session is a no-op — the already-applied guard short-circuits, so
the state is unchanged and no CDP call is issued — while a forced call
re-registers and re-evaluates the script.  (The forced path is not
observationally equivalent to a single application; see the counterexample.) -/
theorem c9_stealth_second_call_noop (s : ConnectorState) (clientOk2 : Bool) :
    applyStealthModeP3 clientOk2 false (applyStealthModeP3 true false s).1
      = ((applyStealthModeP3 true false s).1, []) ∧
    (applyStealthModeP3 true true (applyStealthModeP3 true false s).1).2
      = [StealthStep.installOnNewDocument, StealthStep.evalNow] := by
  cases hs : s.stealthApplied <;> simp [applyStealthModeP3, hs]

/-! ## C10 — visibility flag gates listing, not dispatch -/

/-- C10: every advanced tool is dispatched to its handler even while
`advancedToolsEnabled` is false: dispatch goes through `allToolsMap` and is
independent of the flag, and the dispatch of an advanced tool with the flag
off yields a structured return for that tool.  The flag changes only what
`getActiveTools` lists: core + control when off, everything when on. -/
theorem c10_advanced_tools_dispatch_while_hidden (core control advanced : List String)
    (name : String) (ensureOk parseOk : Bool) (parseErr : String)
    (hr : HandlerOutcome) (hadv : name ∈ advanced) :
    (∀ flag flag2,
      callToolDispatcher core control advanced flag name ensureOk parseOk parseErr hr
        = callToolDispatcher core control advanced flag2 name ensureOk parseOk parseErr hr) ∧
    structuredForTool name
      (callToolDispatcher core control advanced false name ensureOk parseOk parseErr hr) ∧
    getActiveToolNames core control advanced false = core ++ control ∧
    getActiveToolNames core control advanced true = core ++ control ++ advanced := by
  have hknown : (allToolNames core control advanced).contains name = true := by
    simp [allToolNames, hadv]
  exact ⟨fun _ _ => rfl,
    dispatcher_structured_of_contains core control advanced false name ensureOk parseOk
      parseErr hr hknown,
    rfl, rfl⟩

/-- C10 witness: a concrete advanced tool is dispatched while the flag is
off. -/
theorem c10_advanced_tools_dispatch_witness :
    structuredForTool "start_har_recording"
      (callToolDispatcher ["navigate"] ["show_advanced_tools"] ["start_har_recording"]
        false "start_har_recording" true true "" (.ok "{}")) :=
  (c10_advanced_tools_dispatch_while_hidden ["navigate"] ["show_advanced_tools"]
      ["start_har_recording"] "start_har_recording" true true "" (.ok "{}")
      (by decide)).2.1

end ChromeMcp
